import Mathlib

/-!
Shallow embedding of the visit-counter service (`src/index.ts`) of the
track-website-visitors repository.

The service keeps a single-document MongoDB collection (`Visit`, documents of
shape `{count: number}`), a single-key in-memory cache (`visitCache`, key
`"visitCount"`), and an Express HTTP layer.  We embed:

  * the store as the list of persisted records (mongoose `findOne` reads the
    first document, `create`/`save` on a new document appends, `save` on a
    fetched document updates it in place);
  * the cache's `"visitCount"` slot as an `Option Nat` — `none` stands for
    an absent or TTL-expired entry, exactly what `visitCache.get` yields as
    `undefined`;
  * store fallibility as boolean fault flags for the read (`findOne`) and the
    write (`save` / `create`) round trips — when a flag is set the
    corresponding awaited call rejects, as a mongoose connectivity error
    would;
  * the side effects actually performed as an explicit trace, so that
    "issues zero store writes" is a statement about the trace.
-/

namespace TrackVisitors

/-- A persisted document of the `Visit` collection: `{count: number}`. -/
structure VisitRecord where
  count : Nat
deriving DecidableEq, Repr

/-- The persistent store: the list of documents in the `Visit` collection.
`findOne` returns the first one. -/
structure Store where
  records : List VisitRecord
deriving DecidableEq, Repr

/-- The `"visitCount"` slot of `visitCache`.  `none` models both an absent
entry and an expired one (NodeCache returns `undefined` for both). -/
structure Cache where
  entry : Option Nat
deriving DecidableEq, Repr

/-- Side effects a call performs against the store and the cache. -/
inductive Effect where
  | storeRead
  | storeWrite
  | cacheWrite
deriving DecidableEq, Repr

/-- JavaScript truthiness of the value `visitCache.get` returned:
`undefined` and `0` are falsy, every other number is truthy.  This is the
`if (!visitCount)` test of `updateVisitCount`. -/
def isTruthy : Option Nat → Bool
  | some v => v != 0
  | none => false

/-- Embedding of `initializeDatabase` (src/index.ts lines 65-76):
`findOne`; if no document exists, `create({count: 0})`.  Errors from either
awaited call are caught and only logged, leaving the store as it was; the
fault flags model such a rejection of the read or of the create. -/
def initializeDatabase (readFail createFail : Bool) (st : Store) : Store :=
  if readFail then st
  else
    match st.records.head? with
    | some _ => st
    | none => if createFail then st else Store.mk (st.records ++ [VisitRecord.mk 0])

/-- Result of one `updateVisitCount` call: the returned (or thrown) value,
the store and cache afterwards, and the trace of effects performed. -/
structure StepResult where
  result : Except String Nat
  store : Store
  cache : Cache
  effects : List Effect
deriving Repr

/-- Embedding of `updateVisitCount` (src/index.ts lines 116-130):
read `visitCache.get("visitCount")`; if truthy return it with no store
traffic; otherwise `findOne`, then either build a new document at count 1 or
increment the fetched one, `save` it, `visitCache.set` the new count and
return it.  A rejected `findOne` or `save` propagates as an error and leaves
both the store and the cache untouched. -/
def updateVisitCount (readFail writeFail : Bool) (st : Store) (c : Cache) :
    StepResult :=
  if isTruthy c.entry then
    StepResult.mk (Except.ok (c.entry.getD 0)) st c []
  else if readFail then
    StepResult.mk (Except.error "store read failed") st c [Effect.storeRead]
  else
    match st.records.head? with
    | none =>
        if writeFail then
          StepResult.mk (Except.error "store write failed") st c
            [Effect.storeRead, Effect.storeWrite]
        else
          StepResult.mk (Except.ok 1)
            (Store.mk (st.records ++ [VisitRecord.mk 1]))
            (Cache.mk (some 1))
            [Effect.storeRead, Effect.storeWrite, Effect.cacheWrite]
    | some r =>
        if writeFail then
          StepResult.mk (Except.error "store write failed") st c
            [Effect.storeRead, Effect.storeWrite]
        else
          StepResult.mk (Except.ok (r.count + 1))
            (Store.mk (VisitRecord.mk (r.count + 1) :: st.records.tail))
            (Cache.mk (some (r.count + 1)))
            [Effect.storeRead, Effect.storeWrite, Effect.cacheWrite]

/-- Body of an HTTP response of the `/api/visit` route. -/
inductive ResponseBody where
  | visitCountBody (n : Nat)
  | errorBody (msg : String)
deriving DecidableEq, Repr

/-- An HTTP response: status code and JSON body. -/
structure HttpResponse where
  status : Nat
  body : ResponseBody
deriving DecidableEq, Repr

/-- Embedding of the centralized error-handling middleware
(src/index.ts lines 142-145): answer 500 with
`{error: err.message || "Internal Server Error"}` — the fallback fires
exactly when the message is the empty string, which is falsy. -/
def errorHandler (e : String) : HttpResponse :=
  HttpResponse.mk 500
    (ResponseBody.errorBody (if e = "" then "Internal Server Error" else e))

/-- Embedding of the `GET /api/visit` route (src/index.ts lines 133-139):
await `updateVisitCount`; on success answer `200 {visitCount}`; a rejection
is forwarded by `asyncHandler` to the centralized error handler. -/
def apiVisit (readFail writeFail : Bool) (st : Store) (c : Cache) :
    HttpResponse × Store × Cache :=
  match updateVisitCount readFail writeFail st c with
  | StepResult.mk (Except.ok n) st2 c2 _ =>
      (HttpResponse.mk 200 (ResponseBody.visitCountBody n), st2, c2)
  | StepResult.mk (Except.error e) st2 c2 _ => (errorHandler e, st2, c2)

/-- The mongoose connection states. -/
inductive ConnState where
  | disconnected
  | connected
  | connecting
  | disconnecting
deriving DecidableEq, Repr

/-- Numeric encoding `mongoose.connection.readyState` uses:
0 disconnected, 1 connected, 2 connecting, 3 disconnecting. -/
def readyStateNum : ConnState → Nat
  | ConnState.disconnected => 0
  | ConnState.connected => 1
  | ConnState.connecting => 2
  | ConnState.disconnecting => 3

/-- Body of a `/readiness` response. -/
structure ReadinessBody where
  status : String
deriving DecidableEq, Repr

/-- Embedding of the `GET /readiness` route (src/index.ts lines 106-113):
`mongoState === 1` answers `200 {status: "Ready"}`, anything else answers
`500 {status: "Not Ready"}`. -/
def readinessHandler (mongoState : Nat) : Nat × ReadinessBody :=
  if mongoState = 1 then (200, ReadinessBody.mk "Ready")
  else (500, ReadinessBody.mk "Not Ready")

/-- Count of the record `findOne` would return, or 0 when the store is
empty. -/
def headCount (st : Store) : Nat :=
  match st.records.head? with
  | some r => r.count
  | none => 0

/-- The whole mutable state the two store-touching operations act on. -/
structure SysState where
  store : Store
  cache : Cache
deriving DecidableEq, Repr

/-- One operation of the service's lifetime: a run of `initializeDatabase`,
one `/api/visit` request, or the TTL expiry of the cached entry.  The
boolean parameters are the fault flags of the store round trips. -/
inductive Op where
  | opInit (readFail createFail : Bool)
  | opVisit (readFail writeFail : Bool)
  | opExpire
deriving DecidableEq, Repr

/-- Effect of one operation on the system state. -/
def step (s : SysState) : Op → SysState
  | Op.opInit rf cf => SysState.mk (initializeDatabase rf cf s.store) s.cache
  | Op.opVisit rf wf =>
      let r := updateVisitCount rf wf s.store s.cache
      SysState.mk r.store r.cache
  | Op.opExpire => SysState.mk s.store (Cache.mk none)

/-- Run a sequence of operations from a starting state. -/
def run (s : SysState) (ops : List Op) : SysState := ops.foldl step s

/-- Claim C1: with a non-zero value cached under "visitCount",
updateVisitCount returns exactly that value, performs no store read, no
store write, no increment and no cache write: the whole call leaves the
store and the cache untouched and its effect trace is empty. -/
theorem cacheHitShortCircuit (rf wf : Bool) (st : Store) (c : Cache) (v : Nat)
    (hv : c.entry = some v) (hnz : v ≠ 0) :
    updateVisitCount rf wf st c = StepResult.mk (Except.ok v) st c [] := by
  simp [updateVisitCount, isTruthy, hv, hnz]

theorem cacheHitShortCircuit_witness :
    updateVisitCount false false (Store.mk [VisitRecord.mk 7])
        (Cache.mk (some 5)) =
      StepResult.mk (Except.ok 5) (Store.mk [VisitRecord.mk 7])
        (Cache.mk (some 5)) [] :=
  cacheHitShortCircuit false false (Store.mk [VisitRecord.mk 7])
    (Cache.mk (some 5)) 5 rfl (by decide)

/-- Claim C2: on a cache miss with an existing record of count n,
updateVisitCount persists count n+1, writes n+1 into the cache, returns
n+1, and afterwards the cached value equals the store's value. -/
theorem cacheMissExistingRecord (st : Store) (r : VisitRecord)
    (hr : st.records.head? = some r) :
    (updateVisitCount false false st (Cache.mk none)).result =
      Except.ok (r.count + 1) ∧
    (updateVisitCount false false st (Cache.mk none)).store.records.head? =
      some (VisitRecord.mk (r.count + 1)) ∧
    (updateVisitCount false false st (Cache.mk none)).cache.entry =
      some (r.count + 1) ∧
    (updateVisitCount false false st (Cache.mk none)).cache.entry =
      Option.map VisitRecord.count
        ((updateVisitCount false false st (Cache.mk none)).store.records.head?) := by
  simp [updateVisitCount, isTruthy, hr]

theorem cacheMissExistingRecord_witness :
    (updateVisitCount false false (Store.mk [VisitRecord.mk 41])
        (Cache.mk none)).result = Except.ok 42 ∧
    (updateVisitCount false false (Store.mk [VisitRecord.mk 41])
        (Cache.mk none)).store.records.head? = some (VisitRecord.mk 42) ∧
    (updateVisitCount false false (Store.mk [VisitRecord.mk 41])
        (Cache.mk none)).cache.entry = some 42 ∧
    (updateVisitCount false false (Store.mk [VisitRecord.mk 41])
        (Cache.mk none)).cache.entry =
      Option.map VisitRecord.count
        ((updateVisitCount false false (Store.mk [VisitRecord.mk 41])
          (Cache.mk none)).store.records.head?) :=
  cacheMissExistingRecord (Store.mk [VisitRecord.mk 41]) (VisitRecord.mk 41) rfl

/-- Claim C3: from an empty store and an empty cache, updateVisitCount
creates a record with count 1, writes 1 into the cache, and returns 1. -/
theorem cacheMissNoRecord :
    updateVisitCount false false (Store.mk []) (Cache.mk none) =
      StepResult.mk (Except.ok 1) (Store.mk [VisitRecord.mk 1])
        (Cache.mk (some 1))
        [Effect.storeRead, Effect.storeWrite, Effect.cacheWrite] := rfl

/-- Claim C4: every store failure raised inside updateVisitCount propagates
to the /api/visit handler, which answers exactly one 500 response whose
body is shaped as an error object with a string message, and both the store
and the cache are left unmodified. -/
theorem storeFailureNormalized (rf wf : Bool) (st : Store) (c : Cache)
    (e : String) (h : (updateVisitCount rf wf st c).result = Except.error e) :
    (apiVisit rf wf st c).1.status = 500 ∧
    (∃ m : String, (apiVisit rf wf st c).1.body = ResponseBody.errorBody m) ∧
    (apiVisit rf wf st c).2.1 = st ∧
    (apiVisit rf wf st c).2.2 = c := by
  rcases st with ⟨records⟩
  rcases c with ⟨entry⟩
  cases entry with
  | some v =>
    by_cases hv : v = 0
    · subst hv
      cases rf <;> cases wf <;> cases records <;>
        simp_all [updateVisitCount, apiVisit, isTruthy, errorHandler]
    · simp_all [updateVisitCount, apiVisit, isTruthy, hv]
  | none =>
    cases rf <;> cases wf <;> cases records <;>
      simp_all [updateVisitCount, apiVisit, isTruthy, errorHandler]

theorem storeFailureNormalized_witness :
    (apiVisit true false (Store.mk []) (Cache.mk none)).1.status = 500 ∧
    (∃ m : String, (apiVisit true false (Store.mk []) (Cache.mk none)).1.body =
      ResponseBody.errorBody m) ∧
    (apiVisit true false (Store.mk []) (Cache.mk none)).2.1 = Store.mk [] ∧
    (apiVisit true false (Store.mk []) (Cache.mk none)).2.2 = Cache.mk none :=
  storeFailureNormalized true false (Store.mk []) (Cache.mk none)
    "store read failed" rfl

/-- Claim C5: a cached value of zero is treated identically to an absent
entry: updateVisitCount takes the cache-miss path (it reads the store, and
its result, resulting store and effect trace coincide with those of a call
on an absent entry; on the no-fault path it also repopulates the cache the
same way) rather than returning 0. -/
theorem zeroCachedTreatedAsAbsent (rf wf : Bool) (st : Store) :
    (updateVisitCount rf wf st (Cache.mk (some 0))).result =
      (updateVisitCount rf wf st (Cache.mk none)).result ∧
    (updateVisitCount rf wf st (Cache.mk (some 0))).store =
      (updateVisitCount rf wf st (Cache.mk none)).store ∧
    (updateVisitCount rf wf st (Cache.mk (some 0))).effects =
      (updateVisitCount rf wf st (Cache.mk none)).effects ∧
    Effect.storeRead ∈ (updateVisitCount rf wf st (Cache.mk (some 0))).effects ∧
    (rf = false → wf = false →
      (updateVisitCount rf wf st (Cache.mk (some 0))).cache =
        (updateVisitCount rf wf st (Cache.mk none)).cache) := by
  rcases st with ⟨records⟩
  cases rf <;> cases wf <;> cases records <;>
    simp [updateVisitCount, isTruthy]

theorem zeroCachedTreatedAsAbsent_witness :
    (updateVisitCount false false (Store.mk [VisitRecord.mk 5])
        (Cache.mk (some 0))).cache =
      (updateVisitCount false false (Store.mk [VisitRecord.mk 5])
        (Cache.mk none)).cache :=
  (zeroCachedTreatedAsAbsent false false (Store.mk [VisitRecord.mk 5])).2.2.2.2
    rfl rfl

/-- Claim C6: initializeDatabase is idempotent: when a record already
exists it changes nothing; when none exists it creates exactly one record
with count 0; and running it twice equals running it once. -/
theorem initializeDatabaseIdempotent (st : Store) :
    (∀ r, st.records.head? = some r → initializeDatabase false false st = st) ∧
    (st.records.head? = none →
      (initializeDatabase false false st).records = [VisitRecord.mk 0]) ∧
    initializeDatabase false false (initializeDatabase false false st) =
      initializeDatabase false false st := by
  rcases st with ⟨records⟩
  cases records <;> simp [initializeDatabase]

theorem initializeDatabaseIdempotent_witness :
    (initializeDatabase false false (Store.mk [])).records =
      [VisitRecord.mk 0] :=
  (initializeDatabaseIdempotent (Store.mk [])).2.1 rfl

/-- Claim C7: the readiness route answers 200 with status Ready exactly
when the connection state is connected, and 500 with status Not Ready in
every other state. -/
theorem readinessReflectsConnectivity (s : ConnState) :
    (readinessHandler (readyStateNum s) = (200, ReadinessBody.mk "Ready") ↔
      s = ConnState.connected) ∧
    (s ≠ ConnState.connected →
      readinessHandler (readyStateNum s) = (500, ReadinessBody.mk "Not Ready")) := by
  cases s <;> simp [readinessHandler, readyStateNum]

theorem readinessReflectsConnectivity_witness :
    readinessHandler (readyStateNum ConnState.disconnected) =
      (500, ReadinessBody.mk "Not Ready") :=
  (readinessReflectsConnectivity ConnState.disconnected).2 (by decide)

theorem initializeDatabase_length (rf cf : Bool) (st : Store)
    (h : st.records.length ≤ 1) :
    (initializeDatabase rf cf st).records.length ≤ 1 := by
  rcases st with ⟨records⟩
  cases records <;> cases rf <;> cases cf <;>
    simp_all [initializeDatabase]

theorem updateVisitCount_length (rf wf : Bool) (st : Store) (c : Cache)
    (h : st.records.length ≤ 1) :
    (updateVisitCount rf wf st c).store.records.length ≤ 1 := by
  rcases st with ⟨records⟩
  rcases c with ⟨entry⟩
  cases entry with
  | some v =>
    by_cases hv : v = 0
    · subst hv
      cases rf <;> cases wf <;> cases records <;>
        simp_all [updateVisitCount, isTruthy]
    · simp_all [updateVisitCount, isTruthy, hv]
  | none =>
    cases rf <;> cases wf <;> cases records <;>
      simp_all [updateVisitCount, isTruthy]

/-- Claim C8: starting from a store with at most one record, both
initializeDatabase and updateVisitCount leave the store with at most one
record: a record is only created when none exists, otherwise the existing
one is updated. -/
theorem singletonRecordInvariant (rf cf wf : Bool) (st : Store) (c : Cache)
    (h : st.records.length ≤ 1) :
    (initializeDatabase rf cf st).records.length ≤ 1 ∧
    (updateVisitCount rf wf st c).store.records.length ≤ 1 :=
  ⟨initializeDatabase_length rf cf st h, updateVisitCount_length rf wf st c h⟩

theorem singletonRecordInvariant_witness :
    (initializeDatabase false false (Store.mk [])).records.length ≤ 1 ∧
    (updateVisitCount false false (Store.mk [])
        (Cache.mk none)).store.records.length ≤ 1 :=
  singletonRecordInvariant false false false (Store.mk []) (Cache.mk none)
    (by decide)

/-- Claim C9: every value updateVisitCount successfully returns is a
positive integer, and the cache afterwards is either untouched or holds
exactly that positive value — so the service never caches zero and the
zero-is-falsy branch is unreachable from a value it cached itself. -/
theorem serviceValuesPositive (rf wf : Bool) (st : Store) (c : Cache) (n : Nat)
    (h : (updateVisitCount rf wf st c).result = Except.ok n) :
    1 ≤ n ∧
    ((updateVisitCount rf wf st c).cache.entry = c.entry ∨
     (updateVisitCount rf wf st c).cache.entry = some n) := by
  rcases st with ⟨records⟩
  rcases c with ⟨entry⟩
  cases entry with
  | some v =>
    by_cases hv : v = 0
    · subst hv
      cases rf <;> cases wf <;> cases records <;>
        simp_all [updateVisitCount, isTruthy]
      all_goals omega
    · simp_all [updateVisitCount, isTruthy, hv]
      omega
  | none =>
    cases rf <;> cases wf <;> cases records <;>
      simp_all [updateVisitCount, isTruthy]
    all_goals omega

theorem serviceValuesPositive_witness :
    1 ≤ 1 ∧
    ((updateVisitCount false false (Store.mk [])
        (Cache.mk none)).cache.entry = (Cache.mk none).entry ∨
     (updateVisitCount false false (Store.mk [])
        (Cache.mk none)).cache.entry = some 1) :=
  serviceValuesPositive false false (Store.mk []) (Cache.mk none) 1 rfl

theorem headCount_update_le (rf wf : Bool) (st : Store) (c : Cache) :
    headCount st ≤ headCount (updateVisitCount rf wf st c).store := by
  rcases st with ⟨records⟩
  rcases c with ⟨entry⟩
  cases entry with
  | some v =>
    by_cases hv : v = 0
    · subst hv
      cases rf <;> cases wf <;> cases records <;>
        simp [updateVisitCount, isTruthy, headCount]
    · simp [updateVisitCount, isTruthy, hv, headCount]
  | none =>
    cases rf <;> cases wf <;> cases records <;>
      simp [updateVisitCount, isTruthy, headCount]

theorem headCount_init_le (rf cf : Bool) (st : Store) :
    headCount st ≤ headCount (initializeDatabase rf cf st) := by
  rcases st with ⟨records⟩
  cases records <;> cases rf <;> cases cf <;>
    simp [initializeDatabase, headCount]

theorem headCount_step_le (s : SysState) (op : Op) :
    headCount s.store ≤ headCount (step s op).store := by
  cases op with
  | opInit rf cf => exact headCount_init_le rf cf s.store
  | opVisit rf wf => exact headCount_update_le rf wf s.store s.cache
  | opExpire => exact le_refl _

/-- Claim C10: the persisted count is monotone non-decreasing across every
sequence of initializeDatabase runs, /api/visit requests (with or without
store faults) and cache expiries: no operation ever decreases or resets
it. -/
theorem countMonotone (s : SysState) (ops : List Op) :
    headCount s.store ≤ headCount (run s ops).store := by
  induction ops generalizing s with
  | nil => exact le_refl _
  | cons op rest ih =>
      exact le_trans (headCount_step_le s op) (ih (step s op))

end TrackVisitors
